import Mathlib

/-!
Verification of the 3d-models DirectX 11 renderer.

Shallow embedding conventions:
* HLSL `float` scalars are modelled as `ℚ`.  GPU intrinsic functions whose
  bit-level behaviour we do not model (`sqrt` inside `length`/`normalize`,
  `pow`, and texture sampling) are passed as explicit function parameters,
  so every theorem holds for an arbitrary interpretation of them.
* `float3` / `float4` become the structures `Float3` / `Float4`; `float4x4`
  becomes `Float4x4` with the HLSL `mul(M, v)` column-vector convention.
* The C++ render loop (`Scene.cpp`) is modelled as a list of GPU commands
  together with a small-step state machine over the Direct3D context
  bindings; one frame is the concrete command list `renderScene`.
-/

namespace ThreeD

/-- An HLSL `float3`, with `ℚ` components. -/
structure Float3 where
  x : ℚ
  y : ℚ
  z : ℚ
deriving DecidableEq

/-- An HLSL `float4`, with `ℚ` components. -/
structure Float4 where
  x : ℚ
  y : ℚ
  z : ℚ
  w : ℚ
deriving DecidableEq

/-- The zero `float3` (HLSL `= 0` on a `float3` splats the scalar). -/
def zero3 : Float3 := ⟨0, 0, 0⟩

/-- Componentwise addition of `float3`. -/
def add3 (a b : Float3) : Float3 := ⟨a.x + b.x, a.y + b.y, a.z + b.z⟩

/-- Componentwise subtraction of `float3`. -/
def sub3 (a b : Float3) : Float3 := ⟨a.x - b.x, a.y - b.y, a.z - b.z⟩

/-- Componentwise negation of `float3`. -/
def neg3 (a : Float3) : Float3 := ⟨-a.x, -a.y, -a.z⟩

/-- Scalar times `float3`. -/
def smul3 (s : ℚ) (a : Float3) : Float3 := ⟨s * a.x, s * a.y, s * a.z⟩

/-- `float3` divided componentwise by a scalar (HLSL `v / s`). -/
def divs3 (a : Float3) (s : ℚ) : Float3 := ⟨a.x / s, a.y / s, a.z / s⟩

/-- Componentwise product of two `float3` (HLSL `a * b`). -/
def mul3 (a b : Float3) : Float3 := ⟨a.x * b.x, a.y * b.y, a.z * b.z⟩

/-- HLSL `dot` on `float3`. -/
def dot3 (a b : Float3) : ℚ := a.x * b.x + a.y * b.y + a.z * b.z

/-- HLSL `dot` on `float4`. -/
def dot4 (a b : Float4) : ℚ := a.x * b.x + a.y * b.y + a.z * b.z + a.w * b.w

/-- HLSL `length(v) = sqrt(dot(v, v))`; `sqrt` is an explicit parameter. -/
def length3 (sqrt : ℚ → ℚ) (v : Float3) : ℚ := sqrt (dot3 v v)

/-- HLSL `normalize(v) = v / length(v)`; `sqrt` is an explicit parameter. -/
def normalize3 (sqrt : ℚ → ℚ) (v : Float3) : Float3 :=
  divs3 v (length3 sqrt v)

/-- HLSL `float4(v, w)`. -/
def toFloat4 (v : Float3) (w : ℚ) : Float4 := ⟨v.x, v.y, v.z, w⟩

/-- The `xyz` part of a `float4`. -/
def xyz (v : Float4) : Float3 := ⟨v.x, v.y, v.z⟩

/-- An HLSL `float4x4` given by its four rows. -/
structure Float4x4 where
  r0 : Float4
  r1 : Float4
  r2 : Float4
  r3 : Float4
deriving DecidableEq

/-- HLSL `mul(M, v)` with `v` a column vector: row-by-vector dot products. -/
def mulVec (m : Float4x4) (v : Float4) : Float4 :=
  ⟨dot4 m.r0 v, dot4 m.r1 v, dot4 m.r2 v, dot4 m.r3 v⟩

/-- The identity `float4x4` (used only to build concrete test inputs). -/
def idMat4 : Float4x4 :=
  ⟨⟨1, 0, 0, 0⟩, ⟨0, 1, 0, 0⟩, ⟨0, 0, 1, 0⟩, ⟨0, 0, 0, 1⟩⟩

/-- The all-zero `float3` light-parameter placeholder for concrete inputs. -/
def zeroMat4 : Float4x4 :=
  ⟨⟨0, 0, 0, 0⟩, ⟨0, 0, 0, 0⟩, ⟨0, 0, 0, 0⟩, ⟨0, 0, 0, 0⟩⟩

/-! ### Per-frame constants visible to the shaders (Common.hlsli / Common.h)

`PerFrameConstants` groups, per light: position, colour, facing,
cos-half-angle and the light's view / projection matrices. -/

/-- The per-light block of `PerFrameConstants`. -/
structure LightParams where
  position : Float3
  colour : Float3
  facing : Float3
  cosHalfAngle : ℚ
  viewMatrix : Float4x4
  projectionMatrix : Float4x4
deriving DecidableEq

/-- The fields of the per-frame constant buffer read by the pixel shaders
modelled here (`gLight1*`, `gLight2*`, `gAmbientColour`, `gSpecularPower`,
`gCameraPosition`, `gShift`). -/
structure FrameConstants where
  light1 : LightParams
  light2 : LightParams
  ambientColour : Float3
  specularPower : ℚ
  cameraPosition : Float3
  shift : ℚ
deriving DecidableEq

/-- The interpolated input of the lighting pixel shaders
(`LightingPixelShaderInput`): world position, world normal, uv. -/
structure LightingPixelShaderInput where
  worldPosition : Float3
  worldNormal : Float3
  uv : ℚ × ℚ
deriving DecidableEq

/-! ### ShadowMapping_ps (per-pixel lighting pixel shader)

The two per-light blocks of the shader (lines 85–118 for light 1 and
lines 123–156 for light 2) are identical up to which `gLightN*` constants
they read, so they are embedded once as `lightContribution`, applied to
each light's `LightParams`. -/

/-- ShadowMapping_ps lines 103–104: `shadowMapUV = 0.5*xy/w + (0.5, 0.5)`
followed by the V flip `shadowMapUV.y = 1 - shadowMapUV.y`. -/
def shadowMapUV (p : Float4) : ℚ × ℚ :=
  let u := 0.5 * p.x / p.w + 0.5
  let v := 0.5 * p.y / p.w + 0.5
  (u, 1 - v)

/-- ShadowMapping_ps line 107 / 145: `depthFromLight = z / w` (the
`DepthAdjust` subtraction is commented out in the source). -/
def depthFromLight (p : Float4) : ℚ := p.z / p.w

/-- One light's block of ShadowMapping_ps: cone test, light-space
projection, shadow-map comparison, then diffuse and specular terms.
`shadowSample` models `ShadowMapLightN.Sample(PointClamp, uv).r`.
Returns the pair `(diffuseLightN, specularLightN)`. -/
def lightContribution (sqrt : ℚ → ℚ) (powf : ℚ → ℚ → ℚ)
    (shadowSample : ℚ × ℚ → ℚ) (light : LightParams)
    (worldPosition worldNormal cameraDirection : Float3)
    (specularPower : ℚ) : Float3 × Float3 :=
  let lightDirection := normalize3 sqrt (sub3 light.position worldPosition)
  if dot3 lightDirection (neg3 light.facing) > light.cosHalfAngle then
    let lightViewPosition := mulVec light.viewMatrix (toFloat4 worldPosition 1)
    let lightProjection := mulVec light.projectionMatrix lightViewPosition
    let uv := shadowMapUV lightProjection
    if depthFromLight lightProjection < shadowSample uv then
      let lightDist := length3 sqrt (sub3 light.position worldPosition)
      let diffuse :=
        divs3 (smul3 (max (dot3 worldNormal lightDirection) 0) light.colour) lightDist
      let halfway := normalize3 sqrt (add3 lightDirection cameraDirection)
      let specular :=
        smul3 (powf (max (dot3 worldNormal halfway) 0) specularPower) diffuse
      (diffuse, specular)
    else (zero3, zero3)
  else (zero3, zero3)

/-- The full ShadowMapping_ps `main`: renormalise the input normal,
compute both lights' contributions, add the ambient once, and combine
with the diffuse+specular texture; output alpha is `1.0`.
`diffuseSpecularMap` models `DiffuseSpecularMap.Sample(TexSampler, uv)`. -/
def shadowMapping_ps (sqrt : ℚ → ℚ) (powf : ℚ → ℚ → ℚ)
    (diffuseSpecularMap : ℚ × ℚ → Float4)
    (shadowMapLight1 shadowMapLight2 : ℚ × ℚ → ℚ)
    (c : FrameConstants) (input : LightingPixelShaderInput) : Float4 :=
  let worldNormal := normalize3 sqrt input.worldNormal
  let cameraDirection := normalize3 sqrt (sub3 c.cameraPosition input.worldPosition)
  let l1 := lightContribution sqrt powf shadowMapLight1 c.light1
    input.worldPosition worldNormal cameraDirection c.specularPower
  let l2 := lightContribution sqrt powf shadowMapLight2 c.light2
    input.worldPosition worldNormal cameraDirection c.specularPower
  let diffuseLight := add3 c.ambientColour (add3 l1.1 l2.1)
  let specularLight := add3 l1.2 l2.2
  let textureColour := diffuseSpecularMap input.uv
  let finalColour :=
    add3 (mul3 diffuseLight (xyz textureColour))
      (smul3 textureColour.w specularLight)
  toFloat4 finalColour 1

/-! ### CellShading_ps

The cell-shading pixel shader (`CellShading_ps.hlsl`).  There is no cone
test and no shadow test in this shader: both lights always contribute.
`cellMap` models `CellMap.Sample(PointSampleClamp, level).r`. -/

/-- One light's block of CellShading_ps (lines 35–50 / 54–63): direction
as `lightVector / distance`, diffuse level through the 1-D cell map, then
distance attenuation and the specular term. -/
def cellLight (sqrt : ℚ → ℚ) (powf : ℚ → ℚ → ℚ) (cellMap : ℚ → ℚ)
    (lightPosition lightColour : Float3)
    (worldPosition worldNormal cameraDirection : Float3)
    (specularPower : ℚ) : Float3 × Float3 :=
  let lightVector := sub3 lightPosition worldPosition
  let lightDistance := length3 sqrt lightVector
  let lightDirection := divs3 lightVector lightDistance
  let diffuseLevel := max (dot3 worldNormal lightDirection) 0
  let cellDiffuseLevel := cellMap diffuseLevel
  let diffuseLight := divs3 (smul3 cellDiffuseLevel lightColour) lightDistance
  let halfway := normalize3 sqrt (add3 lightDirection cameraDirection)
  let specularLight :=
    smul3 (powf (max (dot3 worldNormal halfway) 0) specularPower) diffuseLight
  (diffuseLight, specularLight)

/-- The full CellShading_ps `main` (lines 28–76). -/
def cellShading_ps (sqrt : ℚ → ℚ) (powf : ℚ → ℚ → ℚ)
    (diffuseMap : ℚ × ℚ → Float4) (cellMap : ℚ → ℚ)
    (c : FrameConstants) (input : LightingPixelShaderInput) : Float4 :=
  let worldNormal := normalize3 sqrt input.worldNormal
  let cameraDirection := normalize3 sqrt (sub3 c.cameraPosition input.worldPosition)
  let l1 := cellLight sqrt powf cellMap c.light1.position c.light1.colour
    input.worldPosition worldNormal cameraDirection c.specularPower
  let l2 := cellLight sqrt powf cellMap c.light2.position c.light2.colour
    input.worldPosition worldNormal cameraDirection c.specularPower
  let textureColour := diffuseMap input.uv
  let finalColour :=
    add3 (mul3 (add3 c.ambientColour (add3 l1.1 l2.1)) (xyz textureColour))
      (smul3 textureColour.w (add3 l1.2 l2.2))
  toFloat4 finalColour 1

/-- The specification's description of one light's cell-shaded terms
(spec section 4.6): with distance `d` and light direction `Ldir`, the
diffuse term is `lightColour * CellMap(max(dot(N, Ldir), 0)) / d` — the
1-D cell-map lookup keyed by `max(dot(N, Ldir), 0)` replaces that dot
product before the distance-attenuation divide — and the specular term is
`diffuse * pow(max(dot(N, halfway), 0), specularPower)`.  Written from
the spec's words, to be compared with `cellLight`. -/
def cellLightSpec (sqrt : ℚ → ℚ) (powf : ℚ → ℚ → ℚ) (cellMap : ℚ → ℚ)
    (lightPosition lightColour : Float3)
    (worldPosition n viewDir : Float3) (specularPower : ℚ) : Float3 × Float3 :=
  let d := length3 sqrt (sub3 lightPosition worldPosition)
  let ldir := divs3 (sub3 lightPosition worldPosition) d
  let diffuse := divs3 (smul3 (cellMap (max (dot3 n ldir) 0)) lightColour) d
  let halfway := normalize3 sqrt (add3 ldir viewDir)
  let specular := smul3 (powf (max (dot3 n halfway) 0) specularPower) diffuse
  (diffuse, specular)

/-- The specification's description of the cell-shading pixel shader:
`final = (ambient + sum of diffuse) * texture.rgb + (sum of specular) *
texture.a`, with output alpha forced to 1.0.  Written from the spec's
words, to be compared with `cellShading_ps`. -/
def cellShadingSpec (sqrt : ℚ → ℚ) (powf : ℚ → ℚ → ℚ)
    (diffuseMap : ℚ × ℚ → Float4) (cellMap : ℚ → ℚ)
    (c : FrameConstants) (input : LightingPixelShaderInput) : Float4 :=
  let n := normalize3 sqrt input.worldNormal
  let viewDir := normalize3 sqrt (sub3 c.cameraPosition input.worldPosition)
  let l1 := cellLightSpec sqrt powf cellMap c.light1.position c.light1.colour
    input.worldPosition n viewDir c.specularPower
  let l2 := cellLightSpec sqrt powf cellMap c.light2.position c.light2.colour
    input.worldPosition n viewDir c.specularPower
  let tex := diffuseMap input.uv
  toFloat4
    (add3 (mul3 (add3 c.ambientColour (add3 l1.1 l2.1)) (xyz tex))
      (smul3 tex.w (add3 l1.2 l2.2))) 1

/-! ### Scrolling_ps -/

/-- The input of Scrolling_ps (`SimplePixelShaderInput`): just the uv. -/
structure SimplePixelShaderInput where
  uv : ℚ × ℚ
deriving DecidableEq

/-- Scrolling_ps `main` (lines 26–46): `input.uv.y += shift`, sample the
diffuse map, scale r by 0.3, g by 0.7, b by 0.2, force alpha to 1. -/
def scrolling_ps (diffuseMap : ℚ × ℚ → Float4) (shift : ℚ)
    (input : SimplePixelShaderInput) : Float4 :=
  let uv := (input.uv.1, input.uv.2 + shift)
  let textureColour := xyz (diffuseMap uv)
  ⟨textureColour.x * 0.3, textureColour.y * 0.7, textureColour.z * 0.2, 1⟩

/-! ### InitGeometry (Scene.cpp lines 179–319)

Each fallible step of `InitGeometry` is modelled by one field of
`InitEnv` recording whether it succeeds; `meshes` carries the exception
message of the `Mesh` constructors' `try` block.  `texturesOk` models the
single `||`-chain over the seven `LoadTexture` calls (they share one
error message), `loadShadersOk` the result of `LoadShaders` (Shader.cpp
lines 40–70). -/

/-- Outcomes of the fallible steps of `InitGeometry`, in source order. -/
structure InitEnv where
  meshes : Except String Unit
  loadShadersOk : Bool
  perFrameCBOk : Bool
  perModelCBOk : Bool
  texturesOk : Bool
  shadowTex1Ok : Bool
  shadowDSV1Ok : Bool
  shadowSRV1Ok : Bool
  shadowTex2Ok : Bool
  shadowDSV2Ok : Bool
  shadowSRV2Ok : Bool
  createStatesOk : Bool

/-- `InitGeometry`: runs the steps in source order; on the first failure
stores that step's message in `gLastError` and returns `false`, otherwise
returns `true` leaving `gLastError` (the second component) untouched.
The argument `gLastError` is the incoming value of the global. -/
def initGeometry (env : InitEnv) (gLastError : String) : Bool × String :=
  match env.meshes with
  | .error msg => (false, msg)
  | .ok () =>
    if !env.loadShadersOk then (false, "Error loading shaders")
    else if !(env.perFrameCBOk && env.perModelCBOk) then
      (false, "Error creating constant buffers")
    else if !env.texturesOk then (false, "Error loading textures")
    else if !env.shadowTex1Ok then (false, "Error creating shadow map texture")
    else if !env.shadowDSV1Ok then
      (false, "Error creating shadow map depth stencil view")
    else if !env.shadowSRV1Ok then
      (false, "Error creating shadow map shader resource view")
    else if !env.shadowTex2Ok then (false, "Error creating shadow map texture")
    else if !env.shadowDSV2Ok then
      (false, "Error creating shadow map depth stencil view")
    else if !env.shadowSRV2Ok then
      (false, "Error creating shadow map shader resource view")
    else if !env.createStatesOk then (false, "Error creating states")
    else (true, gLastError)

/-- The message of the first failing step of `InitGeometry`, or `none`
when every step succeeds (the specification-side description of the
error behaviour, compared against `initGeometry`). -/
def initFirstError (env : InitEnv) : Option String :=
  match env.meshes with
  | .error msg => some msg
  | .ok () =>
    if !env.loadShadersOk then some "Error loading shaders"
    else if !(env.perFrameCBOk && env.perModelCBOk) then
      some "Error creating constant buffers"
    else if !env.texturesOk then some "Error loading textures"
    else if !env.shadowTex1Ok then some "Error creating shadow map texture"
    else if !env.shadowDSV1Ok then
      some "Error creating shadow map depth stencil view"
    else if !env.shadowSRV1Ok then
      some "Error creating shadow map shader resource view"
    else if !env.shadowTex2Ok then some "Error creating shadow map texture"
    else if !env.shadowDSV2Ok then
      some "Error creating shadow map depth stencil view"
    else if !env.shadowSRV2Ok then
      some "Error creating shadow map shader resource view"
    else if !env.createStatesOk then some "Error creating states"
    else none

/-- Modelled from the spec: the application entry point and message loop
(Main.cpp, which is not under src/) run `InitGeometry` before the frame
loop and abort — rendering no frame — when it returns `false`; only on
`true` is the frame loop entered. -/
def appEntersFrameLoop (env : InitEnv) : Bool :=
  (initGeometry env "").1

/-! ### The per-frame GPU command stream (Scene.cpp lines 435–698)

`RenderScene`, `RenderDepthBufferFromLight` and `RenderSceneFromCamera`
issue a fixed sequence of Direct3D context calls each frame.  They are
embedded as a concrete list of `Cmd`s, and the context's bindings as the
state `GpuState` evolved by `stepCmd`.  Constant-buffer upload plus the
two `SetConstantBuffers` calls are folded into one `updateFrameConstants`
command; `PSSetSamplers` is kept as `setSampler`. -/

/-- Colour render-target binding. -/
inductive ColourTarget
  | noTarget
  | backBuffer
deriving DecidableEq

/-- Depth-stencil-view binding (`unboundDS` before any bind). -/
inductive DepthTarget
  | unboundDS
  | shadowMap1DS
  | shadowMap2DS
  | mainDS
deriving DecidableEq

/-- Shader-resource-view values bound to pixel-shader texture slots. -/
inductive SRV
  | nullSRV
  | shadowMap1SRV
  | shadowMap2SRV
  | floorSRV
  | teapotSRV
  | cubeSRV
  | sphereSRV
  | trollSRV
  | lightSRV
  | cellMapSRV
deriving DecidableEq

/-- Blend states created in State.cpp and used by Scene.cpp. -/
inductive BlendSt
  | noBlendingState
  | additiveBlendingState
deriving DecidableEq

/-- Depth-stencil states. -/
inductive DepthSt
  | useDepthBufferState
  | depthReadOnlyState
deriving DecidableEq

/-- Rasterizer culling states. -/
inductive CullSt
  | cullBackState
  | cullFrontState
  | cullNoneState
deriving DecidableEq

/-- Vertex shaders bound during a frame. -/
inductive VShader
  | basicTransformVS
  | pixelLightingVS
  | wigglingVS
  | cellShadingVS
  | cellShadingOutlineVS
deriving DecidableEq

/-- Pixel shaders bound during a frame. -/
inductive PShader
  | depthOnlyPS
  | pixelLightingPS
  | mixingTexturesPS
  | scrollingPS
  | cellShadingPS
  | cellShadingOutlinePS
  | lightModelPS
deriving DecidableEq

/-- Which camera the per-frame constant matrices were computed from. -/
inductive MatrixSource
  | lightCamera (i : Nat)
  | mainCamera
deriving DecidableEq

/-- The two viewports set during a frame. -/
inductive Viewport
  | shadowMapViewport
  | windowViewport
deriving DecidableEq

/-- Models drawn via `Model::Render()`. -/
inductive DrawModel
  | floorM
  | teapotM
  | sphereM
  | cubeM
  | trollM
  | lightModel (i : Nat)
deriving DecidableEq

/-- One Direct3D context call issued by the render functions. -/
inductive Cmd
  | setViewport (v : Viewport)
  | setRenderTargets (c : ColourTarget) (d : DepthTarget)
  | clearDepth (d : DepthTarget) (value : ℚ)
  | clearColour (c : ColourTarget)
  | updateFrameConstants (m : MatrixSource)
  | setVS (s : VShader)
  | setPS (s : PShader)
  | setBlend (b : BlendSt)
  | setDepthState (d : DepthSt)
  | setCull (c : CullSt)
  | setPSResource (slot : Nat) (v : SRV)
  | setSampler (slot : Nat)
  | draw (m : DrawModel)
  | present
deriving DecidableEq

/-- The Direct3D context bindings tracked by the model. -/
structure GpuState where
  colour : ColourTarget
  depth : DepthTarget
  blend : BlendSt
  depthMode : DepthSt
  cull : CullSt
  vs : VShader
  ps : PShader
  srv0 : SRV
  srv1 : SRV
  srv2 : SRV
  srv3 : SRV
  viewport : Viewport
  matrices : MatrixSource
deriving DecidableEq

/-- Effect of one context call on the tracked bindings (clears, sampler
binds, draws and `Present` do not change them). -/
def stepCmd (s : GpuState) : Cmd → GpuState
  | .setViewport v => { s with viewport := v }
  | .setRenderTargets c d => { s with colour := c, depth := d }
  | .clearDepth _ _ => s
  | .clearColour _ => s
  | .updateFrameConstants m => { s with matrices := m }
  | .setVS sh => { s with vs := sh }
  | .setPS sh => { s with ps := sh }
  | .setBlend b => { s with blend := b }
  | .setDepthState d => { s with depthMode := d }
  | .setCull c => { s with cull := c }
  | .setPSResource slot v =>
    if slot = 0 then { s with srv0 := v }
    else if slot = 1 then { s with srv1 := v }
    else if slot = 2 then { s with srv2 := v }
    else if slot = 3 then { s with srv3 := v }
    else s
  | .setSampler _ => s
  | .draw _ => s
  | .present => s

/-- `RenderDepthBufferFromLight(lightIndex)` (Scene.cpp lines 435–467):
light matrices to the constant buffer, depth-only shader pair, no
blending, depth writes on, front-face culling, then the five
shadow-casting models. -/
def renderDepthBufferFromLight (lightIndex : Nat) : List Cmd :=
  [ .updateFrameConstants (.lightCamera lightIndex),
    .setVS .basicTransformVS, .setPS .depthOnlyPS,
    .setBlend .noBlendingState, .setDepthState .useDepthBufferState,
    .setCull .cullFrontState,
    .draw .floorM, .draw .teapotM, .draw .sphereM, .draw .cubeM,
    .draw .trollM ]

/-- `RenderSceneFromCamera` (Scene.cpp lines 474–580): lit models, the
two-pass cell-shaded troll, then the light markers. -/
def renderSceneFromCamera : List Cmd :=
  [ .updateFrameConstants .mainCamera,
    .setVS .pixelLightingVS, .setPS .pixelLightingPS,
    .setBlend .noBlendingState, .setDepthState .useDepthBufferState,
    .setCull .cullBackState,
    .setPSResource 0 .floorSRV, .setSampler 0,
    .draw .floorM,
    .setPSResource 0 .teapotSRV, .draw .teapotM,
    .setPS .mixingTexturesPS, .setPSResource 0 .cubeSRV,
    .setPSResource 3 .floorSRV, .draw .cubeM,
    .setPS .scrollingPS, .setVS .wigglingVS,
    .setPSResource 0 .sphereSRV, .draw .sphereM,
    .setVS .cellShadingOutlineVS, .setPS .cellShadingOutlinePS,
    .setBlend .noBlendingState, .setDepthState .useDepthBufferState,
    .setCull .cullFrontState,
    .draw .trollM,
    .setVS .cellShadingVS, .setPS .cellShadingPS,
    .setCull .cullBackState,
    .setPSResource 0 .trollSRV, .setSampler 0,
    .setPSResource 1 .cellMapSRV, .setSampler 1,
    .draw .trollM,
    .setVS .basicTransformVS, .setPS .lightModelPS,
    .setPSResource 0 .lightSRV, .setSampler 0,
    .setBlend .additiveBlendingState, .setDepthState .depthReadOnlyState,
    .setCull .cullNoneState,
    .draw (.lightModel 0), .draw (.lightModel 1) ]

/-- `RenderScene` (Scene.cpp lines 587–698): shadow pass for light 0,
shadow pass for light 1, camera pass, unbind of the shadow-map SRVs,
`Present`. -/
def renderScene : List Cmd :=
  [ .setViewport .shadowMapViewport,
    .setRenderTargets .noTarget .shadowMap1DS,
    .clearDepth .shadowMap1DS 1 ]
  ++ renderDepthBufferFromLight 0
  ++ [ .setRenderTargets .noTarget .shadowMap2DS,
       .clearDepth .shadowMap2DS 1 ]
  ++ renderDepthBufferFromLight 1
  ++ [ .setRenderTargets .backBuffer .mainDS,
       .clearColour .backBuffer,
       .clearDepth .mainDS 1,
       .setViewport .windowViewport,
       .setPSResource 1 .shadowMap1SRV,
       .setPSResource 2 .shadowMap2SRV,
       .setSampler 1 ]
  ++ renderSceneFromCamera
  ++ [ .setPSResource 1 .nullSRV, .setPSResource 2 .nullSRV, .present ]

/-- Run a command list from a state. -/
def runCmds (s : GpuState) (cs : List Cmd) : GpuState :=
  cs.foldl stepCmd s

/-- Pair every command with the state the context is in when the command
is issued. -/
def statesBefore : GpuState → List Cmd → List (GpuState × Cmd)
  | _, [] => []
  | s, c :: cs => (s, c) :: statesBefore (stepCmd s c) cs

/-- Every binding state the context passes through while running a
command list (including the initial and final states). -/
def statesAll (s : GpuState) (cs : List Cmd) : List GpuState :=
  cs.scanl stepCmd s

/-- The context bindings when the application's first frame starts: no
targets or resources bound yet (the device defaults; the values of the
shader / state fields before the first frame's own sets are irrelevant,
as every frame sets them before its first draw). -/
def gpu0 : GpuState :=
  ⟨.noTarget, .unboundDS, .noBlendingState, .useDepthBufferState,
   .cullBackState, .basicTransformVS, .depthOnlyPS,
   .nullSRV, .nullSRV, .nullSRV, .nullSRV, .windowViewport, .mainCamera⟩

/-- The context bindings after one frame. -/
def gpu1 : GpuState := runCmds gpu0 renderScene

/-- The context bindings when frame `n` starts (frame 0 starts from the
application defaults). -/
def frameStart : Nat → GpuState
  | 0 => gpu0
  | n + 1 => runCmds (frameStart n) renderScene

/-- `true` iff the command is a draw call. -/
def isDraw : Cmd → Bool
  | .draw _ => true
  | _ => false

/-- The model drawn, when the command is a draw call. -/
def drawTarget : Cmd → Option DrawModel
  | .draw m => some m
  | _ => none

/-- Indices of the state-command pairs satisfying a predicate. -/
def idxWhere (l : List (GpuState × Cmd)) (p : GpuState × Cmd → Bool) :
    List Nat :=
  l.enum.filterMap fun ic => if p ic.2 then some ic.1 else none

/-- Every index of the first list is strictly below every index of the
second. -/
def allBefore (as bs : List Nat) : Bool :=
  as.all fun i => bs.all fun j => decide (i < j)

/-- A draw call issued while the given depth target is bound. -/
def isDrawWithDepth (d : DepthTarget) (p : GpuState × Cmd) : Bool :=
  isDraw p.2 && decide (p.1.depth = d)

/-- A draw call issued while the given SRV is bound to any of the four
pixel-shader texture slots (so the draw can sample that texture). -/
def isDrawSampling (v : SRV) (p : GpuState × Cmd) : Bool :=
  isDraw p.2 &&
    (decide (p.1.srv0 = v) || decide (p.1.srv1 = v) ||
     decide (p.1.srv2 = v) || decide (p.1.srv3 = v))

/-- The frame-ordering property of `RenderScene` (claim C4): the light-0
shadow pass (depth target bound with no colour target, cleared to 1.0,
all five shadow-casting models drawn) strictly precedes the light-1
shadow pass, which strictly precedes every camera-pass draw, which
strictly precedes the single final `Present`; and every draw that could
sample shadow map `i` comes after every draw writing shadow map `i`. -/
def frameOrderCheck (s : GpuState) : Bool :=
  let ann := statesBefore s renderScene
  let sh1 := idxWhere ann (isDrawWithDepth .shadowMap1DS)
  let sh2 := idxWhere ann (isDrawWithDepth .shadowMap2DS)
  let cam := idxWhere ann (isDrawWithDepth .mainDS)
  let pres := idxWhere ann (fun p => decide (p.2 = .present))
  let clear1 := idxWhere ann (fun p => decide (p.2 = .clearDepth .shadowMap1DS 1))
  let clear2 := idxWhere ann (fun p => decide (p.2 = .clearDepth .shadowMap2DS 1))
  let samp1 := idxWhere ann (isDrawSampling .shadowMap1SRV)
  let samp2 := idxWhere ann (isDrawSampling .shadowMap2SRV)
  allBefore sh1 sh2 && allBefore sh2 cam && allBefore cam pres &&
  decide (clear1.length = 1) && decide (clear2.length = 1) &&
  allBefore clear1 sh1 && allBefore clear2 sh2 &&
  allBefore sh1 samp1 && allBefore sh2 samp2 &&
  decide (pres = [renderScene.length - 1]) &&
  -- shadow-pass draws have no colour target bound
  ann.all (fun p =>
    !(isDrawWithDepth .shadowMap1DS p || isDrawWithDepth .shadowMap2DS p) ||
      decide (p.1.colour = .noTarget)) &&
  -- each shadow pass draws exactly the five shadow-casting models, in order
  decide ((ann.filterMap fun p =>
      if p.1.depth = DepthTarget.shadowMap1DS then drawTarget p.2 else none) =
    [.floorM, .teapotM, .sphereM, .cubeM, .trollM]) &&
  decide ((ann.filterMap fun p =>
      if p.1.depth = DepthTarget.shadowMap2DS then drawTarget p.2 else none) =
    [.floorM, .teapotM, .sphereM, .cubeM, .trollM]) &&
  -- every camera-pass draw happens after both shadow maps became samplable
  decide (cam.length ≠ 0)

/-- No state in which a shadow map is bound as the depth target while its
SRV is bound to any pixel-shader texture slot. -/
def noHazard (σ : GpuState) : Bool :=
  !(decide (σ.depth = .shadowMap1DS) &&
    (decide (σ.srv0 = .shadowMap1SRV) || decide (σ.srv1 = .shadowMap1SRV) ||
     decide (σ.srv2 = .shadowMap1SRV) || decide (σ.srv3 = .shadowMap1SRV))) &&
  !(decide (σ.depth = .shadowMap2DS) &&
    (decide (σ.srv0 = .shadowMap2SRV) || decide (σ.srv1 = .shadowMap2SRV) ||
     decide (σ.srv2 = .shadowMap2SRV) || decide (σ.srv3 = .shadowMap2SRV)))

/-- The shadow-map dual-role discipline of a frame (claim C5): no hazard
state ever occurs; the shadow-map SRVs are bound (to slots 1 and 2 only)
while the back buffer's depth buffer is the bound depth target; both
slots are nulled after every camera-pass draw; and the frame ends with
slots 1 and 2 null, so the next frame's shadow pass starts clean. -/
def srvHazardCheck (s : GpuState) : Bool :=
  let ann := statesBefore s renderScene
  let cam := idxWhere ann (isDrawWithDepth .mainDS)
  let nulls := idxWhere ann (fun p =>
    decide (p.2 = .setPSResource 1 .nullSRV) ||
    decide (p.2 = .setPSResource 2 .nullSRV))
  (statesAll s renderScene).all noHazard &&
  ann.all (fun p =>
    match p.2 with
    | .setPSResource slot v =>
      if v = SRV.shadowMap1SRV then
        decide (slot = 1) && decide (p.1.depth = .mainDS)
      else if v = SRV.shadowMap2SRV then
        decide (slot = 2) && decide (p.1.depth = .mainDS)
      else true
    | _ => true) &&
  allBefore cam nulls && decide (nulls.length = 2) &&
  decide ((runCmds s renderScene).srv1 = .nullSRV) &&
  decide ((runCmds s renderScene).srv2 = .nullSRV)

/-- The pipeline states the context is in at each draw call, in order
(render groups are identified by the bound pixel shader). -/
def drawStates (s : GpuState) (cs : List Cmd) : List GpuState :=
  (statesBefore s cs).filterMap fun p => if isDraw p.2 then some p.1 else none

/-- The literal restoration contract of claim C6 over a sequence of draw
states: whenever two consecutive draws belong to different render groups
(different pixel shaders) and the earlier one was issued with an altered
blend / depth-write / culling state, the later one must be issued with
that state back at its default (no blending, depth writes enabled,
back-face culling). -/
def restoredToDefaults : List GpuState → Bool
  | s1 :: s2 :: rest =>
    (decide (s1.ps = s2.ps) ||
      ((decide (s1.blend = .noBlendingState) ||
          decide (s2.blend = .noBlendingState)) &&
       (decide (s1.depthMode = .useDepthBufferState) ||
          decide (s2.depthMode = .useDepthBufferState)) &&
       (decide (s1.cull = .cullBackState) ||
          decide (s2.cull = .cullBackState)))) &&
    restoredToDefaults (s2 :: rest)
  | _ => true

/-- The pipeline state each render group's draws are actually issued
with: depth-only shadow draws and the cell-shading outline draw use
front-face culling (deliberate), all lit camera groups use the defaults
(no blending, depth writes, back-face culling), and the light markers use
additive blending with read-only depth and no culling. -/
def drawStateOk (σ : GpuState) : Bool :=
  match σ.ps with
  | .depthOnlyPS =>
    decide (σ.blend = .noBlendingState) &&
    decide (σ.depthMode = .useDepthBufferState) &&
    decide (σ.cull = .cullFrontState)
  | .cellShadingOutlinePS =>
    decide (σ.blend = .noBlendingState) &&
    decide (σ.depthMode = .useDepthBufferState) &&
    decide (σ.cull = .cullFrontState)
  | .lightModelPS =>
    decide (σ.blend = .additiveBlendingState) &&
    decide (σ.depthMode = .depthReadOnlyState) &&
    decide (σ.cull = .cullNoneState)
  | _ =>
    decide (σ.blend = .noBlendingState) &&
    decide (σ.depthMode = .useDepthBufferState) &&
    decide (σ.cull = .cullBackState)

/-! ## Theorems -/

/-- Running a frame from the application-start bindings yields `gpu1`. -/
theorem runFrame_fix0 : runCmds gpu0 renderScene = gpu1 := rfl

/-- The post-frame bindings are a fixed point of running a frame: every
tracked binding is overwritten during the frame with a frame-determined
value. -/
theorem runFrame_fix1 : runCmds gpu1 renderScene = gpu1 := by decide

/-- Every frame starts either from the application-start bindings (frame
0) or from the post-frame bindings `gpu1` (all later frames). -/
theorem frameStart_cases (n : Nat) : frameStart n = gpu0 ∨ frameStart n = gpu1 := by
  induction n with
  | zero => exact Or.inl rfl
  | succ n ih =>
    right
    show runCmds (frameStart n) renderScene = gpu1
    rcases ih with h | h
    · rw [h]; exact runFrame_fix0
    · rw [h]; exact runFrame_fix1

/-- Claim C1, counterexample: the claim says a point with projected
`y = -1` maps to texture `v = 0`, but the shader's UV computation
(`uv = 0.5*xy/w + 0.5` followed by `v = 1 - v`) sends the clip-space
point `(0, -1, 0, 1)` — whose projected y is `-1` — to `v = 1`, not 0. -/
theorem C1_counterexample :
    (shadowMapUV ⟨0, -1, 0, 1⟩).2 ≠ 0 ∧ (shadowMapUV ⟨0, -1, 0, 1⟩).2 = 1 := by
  constructor <;> norm_num [shadowMapUV]

/-- Claim C1, amended: the shadow-map texture coordinate is computed as
`uv = 0.5*xy/w + 0.5` followed by the V flip `v = 1 - v`, and
consequently a point at the top of the light's view — projected
`y = +1`, since projection-space Y is bottom-up — maps to `v = 0`. -/
theorem C1_amended (p : Float4) :
    shadowMapUV p = (0.5 * p.x / p.w + 0.5, 1 - (0.5 * p.y / p.w + 0.5)) ∧
    (p.y / p.w = 1 → (shadowMapUV p).2 = 0) := by
  refine ⟨rfl, fun h => ?_⟩
  simp only [shadowMapUV]
  rw [mul_div_assoc, h]
  norm_num

/-- Claim C1, witness: at the concrete clip-space point `(0, 1, 0, 1)`
the projected y is 1 and the flipped texture coordinate is `v = 0`. -/
theorem C1_witness :
    ((⟨0, 1, 0, 1⟩ : Float4).y / (⟨0, 1, 0, 1⟩ : Float4).w = 1) ∧
    (shadowMapUV ⟨0, 1, 0, 1⟩).2 = 0 :=
  ⟨by norm_num, (C1_amended ⟨0, 1, 0, 1⟩).2 (by norm_num)⟩

/-- Claim C2, counterexample: the cell-shading pixel shader is a lit
technique but performs no cone test, so a light's contribution outside
its cone is not zero there.  At this concrete input the pixel is outside
light 1's cone (`dot(Ldir, -F) = -1 ≤ cosθ = 0`, first conjunct), yet
with ambient 0, light 2's colour 0 and texture `(1,1,1,0)` the output is
`(1,1,1,1)` (second conjunct), whereas zeroing light 1's colour — i.e.
removing light 1's contribution — gives `(0,0,0,1)` (third conjunct):
light 1 contributes to the output from outside its cone. -/
theorem C2_counterexample :
    (dot3 (divs3 (sub3 (⟨1, 0, 0⟩ : Float3) ⟨0, 0, 0⟩)
        (length3 id (sub3 (⟨1, 0, 0⟩ : Float3) ⟨0, 0, 0⟩)))
      (neg3 (⟨1, 0, 0⟩ : Float3)) ≤ (0 : ℚ)) ∧
    cellShading_ps id (fun _ _ => 0) (fun _ => ⟨1, 1, 1, 0⟩) (fun _ => 1)
      ⟨⟨⟨1, 0, 0⟩, ⟨1, 1, 1⟩, ⟨1, 0, 0⟩, 0, zeroMat4, zeroMat4⟩,
       ⟨⟨1, 0, 0⟩, ⟨0, 0, 0⟩, ⟨1, 0, 0⟩, 0, zeroMat4, zeroMat4⟩,
       ⟨0, 0, 0⟩, 1, ⟨1, 0, 0⟩, 0⟩
      ⟨⟨0, 0, 0⟩, ⟨1, 0, 0⟩, (0, 0)⟩ = ⟨1, 1, 1, 1⟩ ∧
    cellShading_ps id (fun _ _ => 0) (fun _ => ⟨1, 1, 1, 0⟩) (fun _ => 1)
      ⟨⟨⟨1, 0, 0⟩, ⟨0, 0, 0⟩, ⟨1, 0, 0⟩, 0, zeroMat4, zeroMat4⟩,
       ⟨⟨1, 0, 0⟩, ⟨0, 0, 0⟩, ⟨1, 0, 0⟩, 0, zeroMat4, zeroMat4⟩,
       ⟨0, 0, 0⟩, 1, ⟨1, 0, 0⟩, 0⟩
      ⟨⟨0, 0, 0⟩, ⟨1, 0, 0⟩, (0, 0)⟩ = ⟨0, 0, 0, 1⟩ := by
  refine ⟨?_, ?_, ?_⟩ <;>
    norm_num [cellShading_ps, cellLight, normalize3, length3, divs3, smul3,
      add3, sub3, neg3, mul3, dot3, xyz, toFloat4, zero3, max_def]

/-- Claim C2, amended: in the per-pixel shadow-mapping pixel shader (the
only lit technique implementing a cone test; `lightContribution` is the
per-light block used for both lights of `shadowMapping_ps`), a pixel
outside the light's cone — `dot(Ldir, -F) ≤ cosθ` — receives exactly
zero diffuse and specular contribution from that light. -/
theorem C2_amended (sqrt : ℚ → ℚ) (powf : ℚ → ℚ → ℚ)
    (shadowSample : ℚ × ℚ → ℚ) (light : LightParams)
    (worldPosition worldNormal cameraDirection : Float3) (specularPower : ℚ)
    (h : dot3 (normalize3 sqrt (sub3 light.position worldPosition))
        (neg3 light.facing) ≤ light.cosHalfAngle) :
    lightContribution sqrt powf shadowSample light worldPosition worldNormal
      cameraDirection specularPower = (zero3, zero3) := by
  simp only [lightContribution]
  rw [if_neg (not_lt.mpr h)]

/-- Claim C2, witness: a concrete pixel outside a concrete light's cone
(`dot = -1 ≤ cosθ = 0`) gets the zero contribution pair. -/
theorem C2_witness :
    (dot3 (normalize3 id (sub3 (⟨1, 0, 0⟩ : Float3) ⟨0, 0, 0⟩))
        (neg3 (⟨1, 0, 0⟩ : Float3)) ≤ (0 : ℚ)) ∧
    lightContribution id (fun _ _ => 0) (fun _ => 0)
      ⟨⟨1, 0, 0⟩, ⟨1, 1, 1⟩, ⟨1, 0, 0⟩, 0, idMat4, idMat4⟩
      ⟨0, 0, 0⟩ ⟨1, 0, 0⟩ ⟨1, 0, 0⟩ 1 = (zero3, zero3) :=
  ⟨by norm_num [dot3, normalize3, length3, divs3, sub3, neg3],
   C2_amended id (fun _ _ => 0) (fun _ => 0) _ _ _ _ _
     (by norm_num [dot3, normalize3, length3, divs3, sub3, neg3])⟩

/-- Claim C3: shadow inclusion is strict.  Whenever the depth sampled
from the light's shadow map is at most the pixel's depth from the light
(`depthFromLight = z/w`) — in particular when the two are equal — the
light's diffuse and specular contributions are exactly zero, because the
shader requires `depthFromLight < sampledDepth` to light the pixel; by
contraposition a pixel contributes only when the strict inequality
holds. -/
theorem C3_strict_shadow (sqrt : ℚ → ℚ) (powf : ℚ → ℚ → ℚ)
    (shadowSample : ℚ × ℚ → ℚ) (light : LightParams)
    (worldPosition worldNormal cameraDirection : Float3) (specularPower : ℚ)
    (h : shadowSample (shadowMapUV (mulVec light.projectionMatrix
          (mulVec light.viewMatrix (toFloat4 worldPosition 1)))) ≤
        depthFromLight (mulVec light.projectionMatrix
          (mulVec light.viewMatrix (toFloat4 worldPosition 1)))) :
    lightContribution sqrt powf shadowSample light worldPosition worldNormal
      cameraDirection specularPower = (zero3, zero3) := by
  simp only [lightContribution]
  split
  · rw [if_neg (not_lt.mpr h)]
  · rfl

/-- Claim C3, witness: with identity light matrices and a pixel at the
origin, `depthFromLight = 0` equals the sampled depth `0`, and the
contribution is the zero pair even though the pixel is inside the cone
(`dot = 1 > cosθ = 0`). -/
theorem C3_witness :
    ((fun _ : ℚ × ℚ => (0 : ℚ)) (shadowMapUV (mulVec idMat4
        (mulVec idMat4 (toFloat4 ⟨0, 0, 0⟩ 1)))) ≤
      depthFromLight (mulVec idMat4 (mulVec idMat4 (toFloat4 ⟨0, 0, 0⟩ 1)))) ∧
    lightContribution id (fun _ _ => 0) (fun _ => 0)
      ⟨⟨1, 0, 0⟩, ⟨1, 1, 1⟩, ⟨-1, 0, 0⟩, 0, idMat4, idMat4⟩
      ⟨0, 0, 0⟩ ⟨1, 0, 0⟩ ⟨1, 0, 0⟩ 1 = (zero3, zero3) :=
  ⟨by norm_num [depthFromLight, mulVec, idMat4, dot4, toFloat4],
   C3_strict_shadow id (fun _ _ => 0) (fun _ => 0) _ _ _ _ _
     (by norm_num [depthFromLight, mulVec, idMat4, dot4, toFloat4])⟩

/-- Claim C4: in every frame the GPU commands are issued in the strict
order claimed — light-0 shadow pass (depth target bound with no colour
target, cleared once to 1.0, exactly the five shadow-casting models
drawn), then the light-1 shadow pass likewise, then the camera-pass
draws, then a single final `Present`; and every draw that could sample a
shadow map comes after every draw that writes it. -/
theorem C4_frame_order (n : Nat) : frameOrderCheck (frameStart n) = true := by
  rcases frameStart_cases n with h | h <;> rw [h] <;> decide

/-- Claim C5: a shadow map is never bound as depth target and shader
input at once in any reachable frame: the shadow-map SRVs are bound only
to slots 1 and 2 and only while the back buffer's depth buffer is the
bound depth target, both slots are nulled after the last camera-pass
draw (and are null at frame end), so the next frame's shadow pass
rebinds the shadow maps as depth targets with no SRV binding alive. -/
theorem C5_srv_discipline (n : Nat) : srvHazardCheck (frameStart n) = true := by
  rcases frameStart_cases n with h | h <;> rw [h] <;> decide

/-- Claim C6, counterexample: over two consecutive frames the literal
restoration contract fails — the light-marker group alters blending,
depth writes and culling, and the next render group's draw (the first
shadow-pass draw of the following frame) is issued with front-face
culling, not the restored default back-face culling. -/
theorem C6_counterexample :
    restoredToDefaults (drawStates gpu0 (renderScene ++ renderScene)) = false := by
  decide

/-- Claim C6, amended: every draw of every frame is issued with exactly
the pipeline state its render group sets: lit camera groups run at the
defaults (no blending, depth writes, back-face culling) — so the
outline pass's front-face culling and the light markers' blending and
depth alterations never leak into a lit draw — while the depth-only
shadow draws and the outline draw deliberately use front-face culling
and the light markers use additive blending, read-only depth and no
culling; in particular the draw right after the markers (the next
frame's shadow draw) runs with front-face, not back-face, culling. -/
theorem C6_amended (n : Nat) :
    (drawStates (frameStart n) renderScene).all drawStateOk = true := by
  rcases frameStart_cases n with h | h <;> rw [h] <;> decide

/-- Claim C7: the cell-shading pixel shader computes exactly the
specification's formula — each light's diffuse term is
`lightColour * CellMap(max(dot(N, Ldir), 0)) / distance` (the cell-map
lookup replacing the raw dot product before the distance divide), and
the final colour is `(ambient + sum of diffuse) * texture.rgb +
(sum of specular) * texture.a` with output alpha 1.0. -/
theorem C7_cell_formula (sqrt : ℚ → ℚ) (powf : ℚ → ℚ → ℚ)
    (diffuseMap : ℚ × ℚ → Float4) (cellMap : ℚ → ℚ)
    (c : FrameConstants) (input : LightingPixelShaderInput) :
    cellShading_ps sqrt powf diffuseMap cellMap c input =
      cellShadingSpec sqrt powf diffuseMap cellMap c input := rfl

/-- Claim C8: `InitGeometry` returns `false` with the first failing
step's human-readable message stored in `gLastError` whenever any
initialization step fails, and returns `true` (leaving `gLastError`
untouched) when every step succeeds; consequently the application (whose
entry point, modelled from the spec, aborts on `false`) enters the frame
loop exactly when no step failed, so no frame is rendered with
partially-initialized state. -/
theorem C8_init_errors (env : InitEnv) (s : String) :
    initGeometry env s =
      (match initFirstError env with
       | some msg => (false, msg)
       | none => (true, s)) ∧
    appEntersFrameLoop env = (initFirstError env).isNone := by
  obtain ⟨m, a, b, c, d, e, f, g, h2, i, j, k⟩ := env
  cases m with
  | error msg => exact ⟨rfl, rfl⟩
  | ok u =>
    cases u
    cases a <;> cases b <;> cases c <;> cases d <;> cases e <;> cases f <;>
      cases g <;> cases h2 <;> cases i <;> cases j <;> cases k <;>
      exact ⟨rfl, rfl⟩

/-- Claim C9: the scrolling pixel shader adds `shift` to the incoming
`uv.y` before the texture lookup, so on input `(u, v)` the diffuse map is
sampled at `(u, v + shift)` — the output is exactly the channel-scaled
value of the map at that shifted coordinate, and depends on no other
sample point. -/
theorem C9_scrolling (diffuseMap : ℚ × ℚ → Float4) (shift u v : ℚ) :
    scrolling_ps diffuseMap shift ⟨(u, v)⟩ =
      ⟨(diffuseMap (u, v + shift)).x * 0.3, (diffuseMap (u, v + shift)).y * 0.7,
       (diffuseMap (u, v + shift)).z * 0.2, 1⟩ := rfl

/-- Claim C10, counterexample: the claim that the output is never the
raw sampled texture colour fails — when the sampled colour is
`(0, 0, 0, 1)` (black with alpha 1), scaling the zero channels and
forcing alpha to 1 returns exactly the raw sampled colour. -/
theorem C10_counterexample :
    scrolling_ps (fun _ => ⟨0, 0, 0, 1⟩) 0 ⟨(0, 0)⟩ = ⟨0, 0, 0, 1⟩ := by
  norm_num [scrolling_ps, xyz]

/-- Claim C10, amended: after sampling, the output's red channel is the
sample's red multiplied by 0.3, green by 0.7, blue by 0.2, and alpha is
exactly 1.0 (so the output coincides with the raw sample only when that
scaling fixes it, e.g. for black). -/
theorem C10_amended (diffuseMap : ℚ × ℚ → Float4) (shift : ℚ)
    (input : SimplePixelShaderInput) :
    (scrolling_ps diffuseMap shift input).x =
      (diffuseMap (input.uv.1, input.uv.2 + shift)).x * 0.3 ∧
    (scrolling_ps diffuseMap shift input).y =
      (diffuseMap (input.uv.1, input.uv.2 + shift)).y * 0.7 ∧
    (scrolling_ps diffuseMap shift input).z =
      (diffuseMap (input.uv.1, input.uv.2 + shift)).z * 0.2 ∧
    (scrolling_ps diffuseMap shift input).w = 1 :=
  ⟨rfl, rfl, rfl, rfl⟩

end ThreeD
